import Mathlib

/-!
Verification development for the warehouse barcode-scanner workflow engine.

The definitions below are a shallow embedding of the JavaScript sources:
  * `workflows.js` (class `WorkflowManager`): the workflow state machine,
    embedded here as pure functions over an explicit `AppState`;
  * the mock-data / helper module (functions `getBarcodePrefix`,
    `isValidBarcode`, `getOrder`, `getStockCount`, `getLocation`, `getItem`,
    `findItemInOrder`, `findItemInStockCount`, and the constant tables
    `ORDERS`, `STOCK_COUNTS`, `LOCATIONS`, `ITEMS`).

JavaScript strings are modelled by `String`; `str.substring(0, 4)` becomes
`String.mk (toList.take 4)`, `str.startsWith` / `str.includes` become
prefix / sublist tests on the character list.  In-place mutation of the
order / stock-count records shared between the repository tables and the
active session (`this.workflowData` aliases `ORDERS[key]`) is modelled by a
write-through discipline: the session carries the record value together
with its originating store key, and every mutation updates both the carried
value and the store entry.  DOM rendering is modelled only where a claim
depends on it: the presence of the dynamically appended "Complete Order"
button is tracked by the boolean field `completeBtnShown` (the render
function rebuilds the view, clearing the button; `checkOrderCompletion`
re-adds it exactly when every line is complete).

`JSON.parse` together with the `order.order_id && order.items` validation
(an external library call plus truthiness checks) is abstracted as the
environment parameter `Env.parseOrder`; the blocking browser dialogs
`prompt` / `confirm` are abstracted as the environment fields `pinInput`,
`qtyInput`, `confirmAns`, delivered with the event that triggers them.

The undo subsystem (spec section 4.3, `UNDO-FUNCTIONALITY.md`) has no
implementation in the JavaScript sources; each definition belonging to it
is marked `Modelled from the spec:` in its doc comment.
-/

/-- One line of an order (`ORDERS[*].items[i]` in the mock-data module).
The JS records carry no initial `out_of_stock` property; reading it yields
`undefined`, which is falsy, so it is modelled as a `Bool` starting `false`.
The display-only `weight` field (a float never read by any workflow logic)
is omitted. -/
structure OrderItem where
  barcode : String
  name : String
  sku : String
  location : String
  quantity_needed : Nat
  quantity_picked : Nat
  out_of_stock : Bool
deriving DecidableEq, Repr

/-- An order record (`ORDERS[key]`). -/
structure Order where
  order_id : Nat
  customer : String
  items : List OrderItem
deriving DecidableEq, Repr

/-- One line of a stock count (`STOCK_COUNTS[*].items[i]`); `counted_quantity`
is `null` until counted, modelled as `Option Nat` (the code only ever stores
non-negative integers there). -/
structure StockCountItem where
  barcode : String
  name : String
  sku : String
  expected_quantity : Nat
  counted_quantity : Option Nat
deriving DecidableEq, Repr

/-- A stock-count record (`STOCK_COUNTS[key]`). -/
structure StockCount where
  stock_count_id : Nat
  location : String
  items : List StockCountItem
deriving DecidableEq, Repr

/-- A location record (`LOCATIONS[key]`). -/
structure Location where
  location_id : String
  zone : String
  aisle : String
  shelf : String
  capacity : Nat
  current_items : List String
deriving DecidableEq, Repr

/-- An item record (`ITEMS[key]`); the display-only `weight` float is
omitted, it never flows into any workflow logic. -/
structure Item where
  barcode : String
  name : String
  sku : String
  description : String
  dimensions : String
deriving DecidableEq, Repr

/-- JS `str.startsWith(p)` on code points. -/
def jsStartsWith (s p : String) : Bool :=
  p.toList.isPrefixOf s.toList

/-- Sublist-of-consecutive-characters test used to model JS `str.includes`. -/
def containsSub : List Char → List Char → Bool
  | [], sub => sub.isEmpty
  | c :: cs, sub => sub.isPrefixOf (c :: cs) || containsSub cs sub

/-- JS `str.includes(sub)` on code points. -/
def jsIncludes (s sub : String) : Bool :=
  containsSub s.toList sub.toList

/-- Embedding of `getBarcodePrefix` (mock-data module): take the first four
characters; return them when they are one of the three reserved prefixes,
otherwise the empty string (item category).  The JS `typeof` guard is
unrepresentable (inputs are always strings here); the JS falsy-empty guard
coincides with the `substring` path on the empty string. -/
def getBarcodePfx (b : String) : String :=
  if String.mk (b.toList.take 4) = "ord_" || String.mk (b.toList.take 4) = "stc_"
      || String.mk (b.toList.take 4) = "loc_"
  then String.mk (b.toList.take 4) else ""

/-- Embedding of `isValidBarcode`: a string is valid exactly when nonempty. -/
def isValidBarcode (b : String) : Bool :=
  b != ""

/-- Semantic category of a scanned barcode (spec section 4.1); the source
routes on the result of `getBarcodePrefix`, this wrapper names the branch
taken by that `switch`. -/
inductive BarcodeKind where
  | order
  | stockCount
  | location
  | item
deriving DecidableEq, Repr

/-- Classification as performed by the routing `switch` over
`getBarcodePrefix`. -/
def classifyBarcode (b : String) : BarcodeKind :=
  if getBarcodePfx b = "ord_" then BarcodeKind.order
  else if getBarcodePfx b = "stc_" then BarcodeKind.stockCount
  else if getBarcodePfx b = "loc_" then BarcodeKind.location
  else BarcodeKind.item

/-- Association-list lookup modelling a JS object used as a keyed map
(`ORDERS[barcode]` etc.). -/
def storeGet {α : Type} (k : String) : List (String × α) → Option α
  | [] => none
  | (k', v) :: rest => if k' = k then some v else storeGet k rest

/-- Overwrite the value at a key, modelling in-place mutation of the record
a JS object key points at (keys are never added or removed). -/
def storeSet {α : Type} (k : String) (v : α) : List (String × α) → List (String × α)
  | [] => []
  | (k', v') :: rest => if k' = k then (k', v) :: rest else (k', v') :: storeSet k v rest

/-- The Red Widget line of order 1001. -/
def redLine : OrderItem :=
  { barcode := "34623636436", name := "Red Widget", sku := "SKU-RED-001"
    location := "QM1-1-1A", quantity_needed := 5, quantity_picked := 0
    out_of_stock := false }

/-- The Blue Widget line of order 1001. -/
def blueLine : OrderItem :=
  { barcode := "354#%&23_23", name := "Blue Widget", sku := "SKU-BLUE-002"
    location := "QM1-1-2B", quantity_needed := 2, quantity_picked := 0
    out_of_stock := false }

/-- The record `ORDERS["ord_1001"]`. -/
def ord1001 : Order :=
  { order_id := 1001, customer := "ACME Corp", items := [redLine, blueLine] }

/-- The record `ORDERS["ord_1002"]`. -/
def ord1002 : Order :=
  { order_id := 1002
    customer := "TechCorp Ltd"
    items :=
      [ { barcode := "789ABC123XYZ", name := "Green Gadget", sku := "SKU-GREEN-003"
          location := "QM1-2-1A", quantity_needed := 3, quantity_picked := 0
          out_of_stock := false } ] }

/-- The `ORDERS` mock table. -/
def initOrders : List (String × Order) :=
  [("ord_1001", ord1001), ("ord_1002", ord1002)]

/-- The `STOCK_COUNTS` mock table. -/
def initStockCounts : List (String × StockCount) :=
  [ ("stc_2001",
      { stock_count_id := 2001
        location := "QM1-1-1A"
        items :=
          [ { barcode := "34623636436", name := "Red Widget", sku := "SKU-RED-001"
              expected_quantity := 10, counted_quantity := none }
          , { barcode := "YLW-987654321", name := "Yellow Tool", sku := "SKU-YELLOW-004"
              expected_quantity := 15, counted_quantity := none } ] })
  , ("stc_2002",
      { stock_count_id := 2002
        location := "QM1-2-1A"
        items :=
          [ { barcode := "789ABC123XYZ", name := "Green Gadget", sku := "SKU-GREEN-003"
              expected_quantity := 8, counted_quantity := none } ] }) ]

/-- The `LOCATIONS` mock table (read-only: no workflow mutates it). -/
def locationsTable : List (String × Location) :=
  [ ("loc_3001",
      { location_id := "QM1-1-1A", zone := "QM1", aisle := "1", shelf := "1A"
        capacity := 100, current_items := ["34623636436", "354#%&23_23"] })
  , ("loc_3002",
      { location_id := "QM1-1-2B", zone := "QM1", aisle := "1", shelf := "2B"
        capacity := 50, current_items := ["354#%&23_23"] })
  , ("loc_3003",
      { location_id := "QM1-2-1A", zone := "QM1", aisle := "2", shelf := "1A"
        capacity := 75, current_items := ["789ABC123XYZ"] })
  , ("loc_3004",
      { location_id := "QM1-2-2B", zone := "QM1", aisle := "2", shelf := "2B"
        capacity := 60, current_items := [] }) ]

/-- The `ITEMS` mock table (read-only). -/
def itemsTable : List (String × Item) :=
  [ ("34623636436",
      { barcode := "34623636436", name := "Red Widget", sku := "SKU-RED-001"
        description := "Premium red widget for industrial use", dimensions := "10x5x2 cm" })
  , ("354#%&23_23",
      { barcode := "354#%&23_23", name := "Blue Widget", sku := "SKU-BLUE-002"
        description := "Standard blue widget for general applications", dimensions := "8x4x2 cm" })
  , ("789ABC123XYZ",
      { barcode := "789ABC123XYZ", name := "Green Gadget", sku := "SKU-GREEN-003"
        description := "Advanced green gadget with multiple functions", dimensions := "15x8x5 cm" })
  , ("YLW-987654321",
      { barcode := "YLW-987654321", name := "Yellow Tool", sku := "SKU-YELLOW-004"
        description := "Precision yellow tool for specialized tasks", dimensions := "12x6x3 cm" })
  , ("PRP@456DEF789",
      { barcode := "PRP@456DEF789", name := "Purple Device", sku := "SKU-PURPLE-005"
        description := "Compact purple device for mobile operations", dimensions := "9x5x2 cm" }) ]

/-- Embedding of `getLocation` (the `LOCATIONS` table is never mutated, so
the lookup reads the constant table). -/
def getLocation (b : String) : Option Location :=
  storeGet b locationsTable

/-- Embedding of `getItem`: direct lookup, then retry with the legacy
`itm_` prefix. -/
def getItem (b : String) : Option Item :=
  match storeGet b itemsTable with
  | some it => some it
  | none => storeGet ("itm_" ++ b) itemsTable

/-- Match predicate used by `findItemInOrder`: the line barcode equals the
scan, or equals the scan with the legacy `itm_` prefix. -/
def itemMatches (b : String) (it : OrderItem) : Bool :=
  it.barcode == b || it.barcode == ("itm_" ++ b)

/-- Embedding of `findItemInOrder` (the JS null-guard is carried by the
caller, see `handlePickingWorkflow`). -/
def findItemInOrder (o : Order) (b : String) : Option OrderItem :=
  o.items.find? (itemMatches b)

/-- Match predicate used by `findItemInStockCount`. -/
def scItemMatches (b : String) (it : StockCountItem) : Bool :=
  it.barcode == b || it.barcode == ("itm_" ++ b)

/-- Embedding of `findItemInStockCount`. -/
def findItemInStockCount (sc : StockCount) (b : String) : Option StockCountItem :=
  sc.items.find? (scItemMatches b)

/-- Replace the first list element satisfying `p` by its image under `f`;
this is how `array.find(...)` followed by in-place mutation of the found
element acts on the containing list. -/
def updateFirst {α : Type} (p : α → Bool) (f : α → α) : List α → List α
  | [] => []
  | a :: rest => if p a then f a :: rest else a :: updateFirst p f rest

/-- Embedding of `checkOrderCompletion`'s `every` predicate:
`quantity_picked >= quantity_needed || out_of_stock` for each line. -/
def checkOrderCompletion (o : Order) : Bool :=
  o.items.all (fun it => (it.quantity_needed ≤ it.quantity_picked : Bool) || it.out_of_stock)

/-- The `quantity_picked++` mutation of a single order line. -/
def pickInc (it : OrderItem) : OrderItem :=
  { it with quantity_picked := it.quantity_picked + 1 }

/-- Mutate the first order line satisfying `p` (in-place update of a found
array element, seen from the enclosing order record). -/
def orderUpdate (p : OrderItem → Bool) (f : OrderItem → OrderItem) (o : Order) : Order :=
  { o with items := updateFirst p f o.items }

/-- Severity of a user-facing status message (`showSuccess` / `showError` /
`showWarning` / `showInfo` in `WorkflowManager`). -/
inductive Outcome where
  | success (message : String)
  | error (message : String)
  | warning (message : String)
  | info (message : String)
deriving DecidableEq, Repr

/-- Contents of `this.workflowData`.  An order carries the store key it was
loaded from (`some key`: `this.workflowData` aliases `ORDERS[key]`; `none`:
inline order parsed from a scanned JSON payload, not present in any store);
a stock count always carries its store key. -/
inductive WorkData where
  | wdOrder (src : Option String) (o : Order)
  | wdStockCount (key : String) (sc : StockCount)
  | wdLocation (l : Location)
  | wdItem (i : Item)
deriving DecidableEq, Repr

/-- Modelled from the spec: one entry of the undo log (spec sections 3 and
4.3; `UNDO-FUNCTIONALITY.md`).  The undo subsystem has no implementation in
the JavaScript sources; the entry records the action type and the previous
value, per the spec's `UndoEntry{actionType, previousValue, ...}`. -/
inductive UndoEntry where
  | pickItem (barcode : String) (previousQuantity : Nat)
  | countItem (barcode : String) (previousCounted : Option Nat)
  | stepBack (previousStep : Option String)
deriving DecidableEq, Repr

/-- The mutable state of the application: the two mutable mock-data tables
(order lines and stock-count lines are mutated in place through the session
alias) plus the `WorkflowManager` fields.  `completeBtnShown` models whether
the dynamically appended "Complete Order" button is currently in the DOM.
`undoStack` is modelled from the spec (no implementation in the sources). -/
structure AppState where
  orders : List (String × Order)
  stockCounts : List (String × StockCount)
  currentWorkflow : Option String
  workflowData : Option WorkData
  workflowState : String
  moveWorkflowStep : Option String
  moveSourceLocation : Option Location
  moveItem : Option Item
  completeBtnShown : Bool
  undoStack : List UndoEntry
deriving DecidableEq, Repr

/-- The initial state (`new WorkflowManager()` plus the pristine tables). -/
def initState : AppState :=
  { orders := initOrders
    stockCounts := initStockCounts
    currentWorkflow := none
    workflowData := none
    workflowState := "ready"
    moveWorkflowStep := none
    moveSourceLocation := none
    moveItem := none
    completeBtnShown := false
    undoStack := [] }

/-- External inputs consumed synchronously while one event is handled:
`parseOrder` models `JSON.parse` plus the `order.order_id && order.items`
validation (`some o` exactly when the payload parses to a record passing
both truthiness checks); `confirmAns` models `confirm(...)`; `pinInput`
models the PIN `prompt` (`none` = dialog cancelled); `qtyInput` models a
quantity `prompt` followed by `parseInt` (`none` = cancelled, `some none` =
`NaN`, `some (some n)` = parsed integer `n`). -/
structure Env where
  parseOrder : String → Option Order
  confirmAns : Bool
  pinInput : Option String
  qtyInput : Option (Option Int)

/-- A concrete environment for closed evaluations: no payload parses as an
order (true of every plain barcode string), every confirmation is accepted,
no dialog input. -/
def env0 : Env :=
  { parseOrder := fun _ => none
    confirmAns := true
    pinInput := none
    qtyInput := none }

/-- Events the presentation layer can feed into the engine: scans plus the
user actions of spec section 4.2 (cancel, the two completion clicks, the
out-of-stock toggle, manual quantity entry, the step-confirmation clicks of
the move / returns flows, undo). -/
inductive UserEvent where
  | scan (barcode : String)
  | cancel
  | completeOrderClick
  | completeStockCountClick
  | toggleOOS (itemBarcode : String)
  | manualQty (itemBarcode : String)
  | confirmMoveClick
  | startReturnsClick (itemBarcode : String)
  | executeMoveClick (destinationId : String)
  | executeReturnsClick (locationId : String)
  | undoClick
deriving DecidableEq, Repr

/-- Clear every workflow-scoped field (`resetWorkflow`); the mock-data
tables are untouched.  Clearing `undoStack` is modelled from the spec
("log is cleared whenever the session resets for any reason"). -/
def resetState (s : AppState) : AppState :=
  { s with currentWorkflow := none
           workflowData := none
           workflowState := "ready"
           moveWorkflowStep := none
           moveSourceLocation := none
           moveItem := none
           completeBtnShown := false
           undoStack := [] }

/-- Store an order under the session: replace `this.workflowData` and, when
the record was loaded from the `ORDERS` table, write the mutation through
to the table (modelling that the session holds an alias into the table). -/
def writeOrderData (src : Option String) (o : Order) (s : AppState) : AppState :=
  { s with workflowData := some (WorkData.wdOrder src o)
           orders := match src with
                     | some k => storeSet k o s.orders
                     | none => s.orders }

/-- Store a stock count under the session with write-through to the
`STOCK_COUNTS` table. -/
def writeStockCountData (key : String) (sc : StockCount) (s : AppState) : AppState :=
  { s with workflowData := some (WorkData.wdStockCount key sc)
           stockCounts := storeSet key sc s.stockCounts }

/-- Modelled from the spec: append an entry to the undo log, evicting the
oldest beyond length 10 (spec section 4.3; list head = most recent). -/
def pushUndo (e : UndoEntry) (stack : List UndoEntry) : List UndoEntry :=
  (e :: stack).take 10

/-- Embedding of `startPickingWorkflow`: try the inline-JSON path first;
on failure fall back to the `ORDERS` lookup; loading renders the picking
view (no completion button yet). -/
def startPickingWorkflow (env : Env) (b : String) (s : AppState) : AppState × List Outcome :=
  match env.parseOrder b with
  | some o =>
      ({ s with currentWorkflow := some "picking"
                workflowData := some (WorkData.wdOrder none o)
                workflowState := "picking"
                completeBtnShown := false },
       [Outcome.success ("Order " ++ toString o.order_id ++ " loaded for " ++ o.customer)])
  | none =>
      match storeGet b s.orders with
      | none => (s, [Outcome.error ("Order not found: " ++ b)])
      | some o =>
          ({ s with currentWorkflow := some "picking"
                    workflowData := some (WorkData.wdOrder (some b) o)
                    workflowState := "picking"
                    completeBtnShown := false },
           [Outcome.success ("Order " ++ toString o.order_id ++ " loaded for " ++ o.customer)])

/-- Embedding of `startStockCountWorkflow`. -/
def startStockCountWorkflow (b : String) (s : AppState) : AppState × List Outcome :=
  match storeGet b s.stockCounts with
  | none => (s, [Outcome.error ("Stock count not found: " ++ b)])
  | some sc =>
      ({ s with currentWorkflow := some "stockcount"
                workflowData := some (WorkData.wdStockCount b sc)
                workflowState := "stockcount" },
       [Outcome.success ("Stock count " ++ toString sc.stock_count_id
          ++ " loaded for location " ++ sc.location)])

/-- Embedding of `startLocationMoveWorkflow`; the confirmation view is
rendered without any status message. -/
def startLocationMoveWorkflow (b : String) (s : AppState) : AppState × List Outcome :=
  match getLocation b with
  | none => (s, [Outcome.error ("Location not found: " ++ b)])
  | some loc =>
      ({ s with currentWorkflow := some "locationmove"
                workflowData := some (WorkData.wdLocation loc)
                workflowState := "locationmove"
                moveWorkflowStep := some "confirm"
                moveSourceLocation := some loc },
       [])

/-- Embedding of `showItemActionPrompt`: look the item up and render the
action prompt; the workflow state stays `ready`. -/
def showItemActionPrompt (b : String) (s : AppState) : AppState × List Outcome :=
  match getItem b with
  | none => (s, [Outcome.error ("Item not found: " ++ b)])
  | some it =>
      ({ s with workflowData := some (WorkData.wdItem it) },
       [Outcome.info ("Item scanned: " ++ it.name)])

/-- The prefix `switch` of `handleReadyState` (the part below the inline-JSON
test). -/
def handlePrefixSwitch (env : Env) (b pfx : String) (s : AppState) : AppState × List Outcome :=
  if pfx = "ord_" then startPickingWorkflow env b s
  else if pfx = "stc_" then startStockCountWorkflow b s
  else if pfx = "loc_" then startLocationMoveWorkflow b s
  else showItemActionPrompt b s

/-- Embedding of `handleReadyState`: the inline-JSON textual gate
(`startsWith brace` and `includes order_id`), then the prefix switch. -/
def handleReadyState (env : Env) (b pfx : String) (s : AppState) : AppState × List Outcome :=
  if jsStartsWith b "\x7b" && jsIncludes b "order_id" then
    startPickingWorkflow env b s
  else
    handlePrefixSwitch env b pfx s

/-- Embedding of `handlePickingWorkflow`.  The fallthrough branch mirrors
`findItemInOrder`'s null-tolerance: with no (order-shaped) workflow data the
lookup yields null and the "not in order" error is shown; in a `picking`
session the data is always an order, so that branch is unreachable.  The
undo push is modelled from the spec (previous quantity saved before the
increment). -/
def handlePickingWorkflow (b pfx : String) (s : AppState) : AppState × List Outcome :=
  if pfx = "ord_" || pfx = "stc_" || pfx = "loc_" then
    (s, [Outcome.error "Item doesn\x27t exist in order"])
  else
    match s.workflowData with
    | some (WorkData.wdOrder src o) =>
        match findItemInOrder o b with
        | none => (s, [Outcome.error "Item doesn\x27t appear in the order"])
        | some it =>
            if it.quantity_picked < it.quantity_needed then
              let o' := orderUpdate (itemMatches b) pickInc o
              let s' := writeOrderData src o' s
              ({ s' with completeBtnShown := checkOrderCompletion o'
                         undoStack := pushUndo (UndoEntry.pickItem b it.quantity_picked) s'.undoStack },
               [Outcome.success ("Picked " ++ it.name ++ " (" ++ toString (it.quantity_picked + 1)
                  ++ "/" ++ toString it.quantity_needed ++ ")")])
            else
              (s, [Outcome.warning (it.name ++ " already complete")])
    | _ => (s, [Outcome.error "Item doesn\x27t appear in the order"])

/-- Embedding of `promptForQuantity` (called synchronously from the
stock-count scan handler): dialog cancelled does nothing, a non-numeric or
negative entry is rejected, otherwise the counted quantity is set (with
write-through).  The undo push is modelled from the spec. -/
def promptForQuantity (env : Env) (key : String) (sc : StockCount) (it : StockCountItem)
    (b : String) (s : AppState) : AppState × List Outcome :=
  match env.qtyInput with
  | none => (s, [])
  | some none => (s, [Outcome.error "Invalid quantity entered"])
  | some (some n) =>
      if 0 ≤ n then
        let setCount := fun (x : StockCountItem) => { x with counted_quantity := some n.toNat }
        let sc' := { sc with items := updateFirst (scItemMatches b) setCount sc.items }
        let s' := writeStockCountData key sc' s
        ({ s' with undoStack := pushUndo (UndoEntry.countItem b it.counted_quantity) s'.undoStack },
         [Outcome.success ("Counted " ++ it.name ++ ": " ++ toString n)])
      else
        (s, [Outcome.error "Invalid quantity entered"])

/-- Embedding of `handleStockCountWorkflow`; the fallthrough branch mirrors
`findItemInStockCount`'s null-tolerance (unreachable in a `stockcount`
session). -/
def handleStockCountWorkflow (env : Env) (b pfx : String) (s : AppState) : AppState × List Outcome :=
  if pfx = "ord_" || pfx = "stc_" || pfx = "loc_" then
    (s, [Outcome.error "Item doesn\x27t exist in stock count"])
  else
    match s.workflowData with
    | some (WorkData.wdStockCount key sc) =>
        match findItemInStockCount sc b with
        | none => (s, [Outcome.error "Item not in this stock count"])
        | some it => promptForQuantity env key sc it b s
    | _ => (s, [Outcome.error "Item not in this stock count"])

/-- Embedding of `handleLocationMoveWorkflow` (the `confirm` step has no
`switch` case, so a scan there does nothing).  A successful destination scan
only renders the confirmation view (`showMoveConfirmation`): no status
message and no state change.  The undo push on the item-scan transition is
modelled from the spec. -/
def handleLocationMoveWorkflow (b pfx : String) (s : AppState) : AppState × List Outcome :=
  if s.moveWorkflowStep = some "scan_item" then
    if pfx = "ord_" || pfx = "stc_" || pfx = "loc_" then
      (s, [Outcome.error "Please scan an item to move"])
    else
      match getItem b with
      | none => (s, [Outcome.error ("Item not found: " ++ b)])
      | some it =>
          ({ s with moveItem := some it
                    moveWorkflowStep := some "scan_destination"
                    undoStack := pushUndo (UndoEntry.stepBack (some "scan_item")) s.undoStack },
           [Outcome.info ("Now scan the destination location for " ++ it.name)])
  else if s.moveWorkflowStep = some "scan_destination" then
    if pfx ≠ "loc_" then
      (s, [Outcome.error "Please scan a location barcode (loc_)"])
    else
      match getLocation b with
      | none => (s, [Outcome.error ("Location not found: " ++ b)])
      | some _ => (s, [])
  else
    (s, [])

/-- Embedding of `handleReturnsWorkflow`.  The source-scan message reads
`this.moveItem.name`; in a `returns` session `moveItem` is always set, the
`none` branch is unreachable (the JS would throw there).  The undo push is
modelled from the spec. -/
def handleReturnsWorkflow (b pfx : String) (s : AppState) : AppState × List Outcome :=
  if s.moveWorkflowStep = some "scan_source" then
    if pfx ≠ "loc_" then
      (s, [Outcome.error "Please scan a location barcode (loc_)"])
    else
      match getLocation b with
      | none => (s, [Outcome.error ("Location not found: " ++ b)])
      | some loc =>
          match s.moveItem with
          | none => (s, [])
          | some it =>
              ({ s with moveSourceLocation := some loc
                        moveWorkflowStep := some "scan_destination"
                        undoStack := pushUndo (UndoEntry.stepBack (some "scan_source")) s.undoStack },
               [Outcome.info ("Now scan the destination location for " ++ it.name)])
  else if s.moveWorkflowStep = some "scan_destination" then
    if pfx ≠ "loc_" then
      (s, [Outcome.error "Please scan a location barcode (loc_)"])
    else
      match getLocation b with
      | none => (s, [Outcome.error ("Location not found: " ++ b)])
      | some _ => (s, [])
  else
    (s, [])

/-- Embedding of `handleBarcodeScan`: validity gate, prefix computation,
dispatch on the workflow state (states outside the `switch`, such as
`quantity_update`, fall through with no effect). -/
def dispatchScan (env : Env) (b : String) (s : AppState) : AppState × List Outcome :=
  if isValidBarcode b = false then
    (s, [Outcome.error "Invalid barcode format"])
  else
    if s.workflowState = "ready" then handleReadyState env b (getBarcodePfx b) s
    else if s.workflowState = "picking" then handlePickingWorkflow b (getBarcodePfx b) s
    else if s.workflowState = "stockcount" then handleStockCountWorkflow env b (getBarcodePfx b) s
    else if s.workflowState = "locationmove" then handleLocationMoveWorkflow b (getBarcodePfx b) s
    else if s.workflowState = "returns" then handleReturnsWorkflow b (getBarcodePfx b) s
    else (s, [])

/-- Embedding of `cancelWorkflow`: warn and reset, unconditionally. -/
def cancelWorkflow (s : AppState) : AppState × List Outcome :=
  (resetState s, [Outcome.warning "Workflow cancelled"])

/-- Embedding of `completeOrder` (reachable through the "Complete Order"
button, which exists exactly when `completeBtnShown`): with incomplete
lines a declined confirmation aborts; otherwise every line's
`quantity_picked` is reset to 0 (mutating the aliased store record), the
success message is shown and the session resets. -/
def completeOrder (env : Env) (s : AppState) : AppState × List Outcome :=
  match s.workflowData with
  | some (WorkData.wdOrder src o) =>
      if s.completeBtnShown then
        let incomplete := o.items.filter (fun it => it.quantity_picked < it.quantity_needed)
        if 0 < incomplete.length && !env.confirmAns then
          (s, [])
        else
          let o' := { o with items := o.items.map (fun it => { it with quantity_picked := 0 }) }
          let s' := writeOrderData src o' s
          (resetState s',
           [Outcome.success ("Order " ++ toString o.order_id ++ " completed successfully!")])
      else (s, [])
  | _ => (s, [])

/-- Embedding of `completeStockCount` (the "Complete Count" button is part
of the stock-count view, always present there). -/
def completeStockCount (env : Env) (s : AppState) : AppState × List Outcome :=
  match s.workflowData with
  | some (WorkData.wdStockCount key sc) =>
      if s.workflowState = "stockcount" then
        let uncounted := sc.items.filter (fun it => it.counted_quantity = none)
        if 0 < uncounted.length && !env.confirmAns then
          (s, [])
        else
          let sc' := { sc with items := sc.items.map (fun it => { it with counted_quantity := none }) }
          let s' := writeStockCountData key sc' s
          (resetState s',
           [Outcome.success ("Stock count " ++ toString sc.stock_count_id ++ " completed!")])
      else (s, [])
  | _ => (s, [])

/-- Embedding of `toggleOutOfStock` (the per-line button of the picking
view): flip the flag (setting it requires a confirmed dialog), then
re-render and re-check completion. -/
def toggleOutOfStock (env : Env) (ib : String) (s : AppState) : AppState × List Outcome :=
  match s.workflowData with
  | some (WorkData.wdOrder src o) =>
      if s.workflowState = "picking" then
        match findItemInOrder o ib with
        | none => (s, [])
        | some it =>
            if it.out_of_stock then
              let o' := orderUpdate (itemMatches ib) (fun x => { x with out_of_stock := false }) o
              let s' := writeOrderData src o' s
              ({ s' with completeBtnShown := checkOrderCompletion o' },
               [Outcome.success (it.name ++ " back in stock")])
            else if env.confirmAns then
              let o' := orderUpdate (itemMatches ib) (fun x => { x with out_of_stock := true }) o
              let s' := writeOrderData src o' s
              ({ s' with completeBtnShown := checkOrderCompletion o' },
               [Outcome.warning (it.name ++ " marked as out of stock")])
            else (s, [])
      else (s, [])
  | _ => (s, [])

/-- Embedding of `manualQuantityEntry`: PIN gate, then a prompted quantity
accepted when `0 ≤ n ≤ quantity_needed`, directly setting the picked
quantity (with re-render and completion re-check). -/
def manualQuantityEntry (env : Env) (ib : String) (s : AppState) : AppState × List Outcome :=
  if s.workflowState = "picking" then
    if env.pinInput ≠ some "1234" then
      (s, [Outcome.error "Invalid PIN"])
    else
      match s.workflowData with
      | some (WorkData.wdOrder src o) =>
          match findItemInOrder o ib with
          | none => (s, [])
          | some it =>
              match env.qtyInput with
              | none => (s, [])
              | some none => (s, [Outcome.error "Invalid quantity"])
              | some (some n) =>
                  if 0 ≤ n && n ≤ (it.quantity_needed : Int) then
                    let o' := orderUpdate (itemMatches ib)
                                (fun x => { x with quantity_picked := n.toNat }) o
                    let s' := writeOrderData src o' s
                    ({ s' with completeBtnShown := checkOrderCompletion o' },
                     [Outcome.success ("Updated " ++ it.name ++ ": " ++ toString n
                        ++ "/" ++ toString it.quantity_needed)])
                  else (s, [Outcome.error "Invalid quantity"])
      | _ => (s, [])
  else (s, [])

/-- Embedding of `confirmLocationMove` (the "Yes, Move Item" button of the
location-move confirmation view). -/
def confirmLocationMove (s : AppState) : AppState × List Outcome :=
  if s.workflowState = "locationmove" && s.moveWorkflowStep = some "confirm" then
    match s.moveSourceLocation with
    | some loc =>
        ({ s with moveWorkflowStep := some "scan_item" },
         [Outcome.info ("Scan the item you want to move from " ++ loc.location_id)])
    | none => (s, [])
  else (s, [])

/-- Embedding of `startReturnsWorkflow` (the "Start Returns Process" button,
present exactly while the item-action prompt is showing: ready state with an
item loaded in `workflowData`). -/
def startReturnsClick (ib : String) (s : AppState) : AppState × List Outcome :=
  if s.workflowState = "ready" then
    match s.workflowData with
    | some (WorkData.wdItem _) =>
        match getItem ib with
        | none => (s, [Outcome.error ("Item not found: " ++ ib)])
        | some it =>
            ({ s with currentWorkflow := some "returns"
                      workflowData := some (WorkData.wdItem it)
                      workflowState := "returns"
                      moveItem := some it
                      moveWorkflowStep := some "scan_source" },
             [Outcome.info ("Scan the location you are moving " ++ it.name ++ " from")])
    | _ => (s, [])
  else (s, [])

/-- Embedding of `executeMove` (the "Confirm Move" button of the final
location-move confirmation view; `moveItem` / `moveSourceLocation` are set
whenever that view exists): a final `confirm` dialog, then success message
and reset (the move itself is simulated: no store is touched). -/
def executeMove (env : Env) (dest : String) (s : AppState) : AppState × List Outcome :=
  if s.workflowState = "locationmove" then
    match s.moveItem, s.moveSourceLocation with
    | some it, some src =>
        if env.confirmAns then
          (resetState s,
           [Outcome.success (it.name ++ " moved from " ++ src.location_id ++ " to " ++ dest)])
        else (s, [])
    | _, _ => (s, [])
  else (s, [])

/-- Embedding of `executeReturns` (its `confirm` call is commented out in
the source: placement is unconditional). -/
def executeReturns (locId : String) (s : AppState) : AppState × List Outcome :=
  if s.workflowState = "returns" then
    match s.moveItem with
    | some it =>
        (resetState s, [Outcome.success (it.name ++ " placed in location " ++ locId)])
    | none => (s, [])
  else (s, [])

/-- Modelled from the spec: apply the type-specific inverse of one undo
entry (spec section 4.3: restore the picked quantity, restore the prior
counted quantity or unset, step back one position); an entry whose shape
does not match the current session is a warning no-op
(`UNDO-FUNCTIONALITY.md`: "Undo invalid action type shows warning"). -/
def applyUndo (e : UndoEntry) (s : AppState) : AppState × List Outcome :=
  match e with
  | UndoEntry.pickItem b prev =>
      match s.workflowData with
      | some (WorkData.wdOrder src o) =>
          let o' := orderUpdate (itemMatches b) (fun x => { x with quantity_picked := prev }) o
          let s' := writeOrderData src o' s
          ({ s' with completeBtnShown := checkOrderCompletion o' },
           [Outcome.success "Undid item pick"])
      | _ => (s, [Outcome.warning "Nothing to undo"])
  | UndoEntry.countItem b prev =>
      match s.workflowData with
      | some (WorkData.wdStockCount key sc) =>
          let restoreCount := fun (x : StockCountItem) => { x with counted_quantity := prev }
          let sc' := { sc with items := updateFirst (scItemMatches b) restoreCount sc.items }
          (writeStockCountData key sc' s, [Outcome.success "Undid count entry"])
      | _ => (s, [Outcome.warning "Nothing to undo"])
  | UndoEntry.stepBack prev =>
      ({ s with moveWorkflowStep := prev }, [Outcome.success "Returned to previous step"])

/-- Modelled from the spec: `undoLast` pops the most recent entry and applies
its inverse; with an empty log it is a warning no-op (spec sections 4.3 and
8: "undoing when the log is empty never mutates state"). -/
def undoLast (s : AppState) : AppState × List Outcome :=
  match s.undoStack with
  | [] => (s, [Outcome.warning "Nothing to undo"])
  | e :: rest => applyUndo e { s with undoStack := rest }

/-- The full event-step function: `submit(rawBarcode | userAction)` of spec
section 4.2, dispatching to the embedded handlers above. -/
def step (env : Env) (ev : UserEvent) (s : AppState) : AppState × List Outcome :=
  match ev with
  | UserEvent.scan b => dispatchScan env b s
  | UserEvent.cancel => cancelWorkflow s
  | UserEvent.completeOrderClick => completeOrder env s
  | UserEvent.completeStockCountClick => completeStockCount env s
  | UserEvent.toggleOOS ib => toggleOutOfStock env ib s
  | UserEvent.manualQty ib => manualQuantityEntry env ib s
  | UserEvent.confirmMoveClick => confirmLocationMove s
  | UserEvent.startReturnsClick ib => startReturnsClick ib s
  | UserEvent.executeMoveClick dest => executeMove env dest s
  | UserEvent.executeReturnsClick locId => executeReturns locId s
  | UserEvent.undoClick => undoLast s

lemma isValidBarcode_true {b : String} (h : b ≠ "") : isValidBarcode b = true := by
  simp [isValidBarcode, h]

lemma getBarcodePfx_cases (b : String) :
    getBarcodePfx b = "ord_" ∨ getBarcodePfx b = "stc_" ∨ getBarcodePfx b = "loc_" ∨
      getBarcodePfx b = "" := by
  unfold getBarcodePfx
  split
  · rename_i h
    rcases Bool.or_eq_true_iff.mp h with h | h
    · rcases Bool.or_eq_true_iff.mp h with h | h
      · exact Or.inl (by simpa using h)
      · exact Or.inr (Or.inl (by simpa using h))
    · exact Or.inr (Or.inr (Or.inl (by simpa using h)))
  · exact Or.inr (Or.inr (Or.inr rfl))

lemma mk_take4_eq {b : String} {p : String}
    (h : getBarcodePfx b = p) (hne : p ≠ "") : String.mk (b.toList.take 4) = p := by
  unfold getBarcodePfx at h
  split at h
  · exact h
  · exact absurd h.symm hne

lemma toList_head_of_take4 {b : String} {c : Char} {l : List Char}
    (h : String.mk (b.toList.take 4) = String.mk (c :: l)) : ∃ r, b.toList = c :: r := by
  have hd : b.toList.take 4 = c :: l := congrArg String.toList h
  cases hb : b.toList with
  | nil => rw [hb] at hd; simp at hd
  | cons x xs =>
    rw [hb, List.take_succ_cons] at hd
    injection hd with h1 h2
    exact ⟨xs, by rw [h1]⟩

lemma pfx_reserved_head {b : String} (h : getBarcodePfx b ≠ "") :
    ∃ c r, b.toList = c :: r ∧ (c = 'o' ∨ c = 's' ∨ c = 'l') := by
  rcases getBarcodePfx_cases b with hp | hp | hp | hp
  · have h4 := mk_take4_eq hp (by decide)
    rw [show ("ord_" : String) = String.mk ['o','r','d','_'] from rfl] at h4
    obtain ⟨r, hr⟩ := toList_head_of_take4 h4
    exact ⟨'o', r, hr, Or.inl rfl⟩
  · have h4 := mk_take4_eq hp (by decide)
    rw [show ("stc_" : String) = String.mk ['s','t','c','_'] from rfl] at h4
    obtain ⟨r, hr⟩ := toList_head_of_take4 h4
    exact ⟨'s', r, hr, Or.inr (Or.inl rfl)⟩
  · have h4 := mk_take4_eq hp (by decide)
    rw [show ("loc_" : String) = String.mk ['l','o','c','_'] from rfl] at h4
    obtain ⟨r, hr⟩ := toList_head_of_take4 h4
    exact ⟨'l', r, hr, Or.inr (Or.inr rfl)⟩
  · exact absurd hp h

lemma pfx_reserved_not_brace {b : String} (h : getBarcodePfx b ≠ "") :
    jsStartsWith b "\x7b" = false := by
  obtain ⟨c, r, hr, hc⟩ := pfx_reserved_head h
  unfold jsStartsWith
  rw [hr]
  rcases hc with h | h | h <;> subst h <;> rfl

lemma pfx_reserved_valid {b : String} (h : getBarcodePfx b ≠ "") :
    isValidBarcode b = true := by
  obtain ⟨c, r, hr, _⟩ := pfx_reserved_head h
  apply isValidBarcode_true
  intro hb
  rw [hb] at hr
  exact absurd hr (by simp)

lemma find?_updateFirst {α : Type} (p : α → Bool) (f : α → α) (l : List α) (a : α)
    (h : l.find? p = some a) (hf : p (f a) = true) :
    (updateFirst p f l).find? p = some (f a) := by
  induction l with
  | nil => simp [List.find?] at h
  | cons x xs ih =>
    by_cases hx : p x = true
    · rw [List.find?_cons_of_pos _ hx] at h
      injection h with h
      subst h
      rw [show updateFirst p f (x :: xs) = f x :: xs from by simp [updateFirst, hx]]
      exact List.find?_cons_of_pos _ hf
    · rw [List.find?_cons_of_neg _ hx] at h
      rw [show updateFirst p f (x :: xs) = x :: updateFirst p f xs from by simp [updateFirst, hx]]
      rw [List.find?_cons_of_neg _ hx]
      exact ih h

lemma storeGet_storeSet_self {α : Type} (k : String) (v w : α) (l : List (String × α))
    (h : storeGet k l = some w) : storeGet k (storeSet k v l) = some v := by
  induction l with
  | nil => simp [storeGet] at h
  | cons kv rest ih =>
    obtain ⟨k', v'⟩ := kv
    by_cases hk : k' = k
    · simp [storeGet, storeSet, hk]
    · simp only [storeGet, storeSet, if_neg hk] at h ⊢
      exact ih h

lemma handlePickingWorkflow_ws (b p : String) (s : AppState) :
    ((handlePickingWorkflow b p s).1).workflowState = s.workflowState := by
  unfold handlePickingWorkflow
  repeat' split
  all_goals simp [writeOrderData]

lemma handleStockCountWorkflow_ws (env : Env) (b p : String) (s : AppState) :
    ((handleStockCountWorkflow env b p s).1).workflowState = s.workflowState := by
  unfold handleStockCountWorkflow promptForQuantity
  repeat' split
  all_goals simp [writeStockCountData]

lemma handleLocationMoveWorkflow_ws (b p : String) (s : AppState) :
    ((handleLocationMoveWorkflow b p s).1).workflowState = s.workflowState := by
  unfold handleLocationMoveWorkflow
  repeat' split
  all_goals rfl

lemma handleReturnsWorkflow_ws (b p : String) (s : AppState) :
    ((handleReturnsWorkflow b p s).1).workflowState = s.workflowState := by
  unfold handleReturnsWorkflow
  repeat' split
  all_goals rfl

lemma dispatchScan_ws (env : Env) (b : String) (s : AppState)
    (h : s.workflowState ≠ "ready") :
    ((dispatchScan env b s).1).workflowState = s.workflowState := by
  unfold dispatchScan
  repeat' split
  all_goals first
    | rfl
    | exact absurd (by assumption) h
    | exact handlePickingWorkflow_ws b (getBarcodePfx b) s
    | exact handleStockCountWorkflow_ws env b (getBarcodePfx b) s
    | exact handleLocationMoveWorkflow_ws b (getBarcodePfx b) s
    | exact handleReturnsWorkflow_ws b (getBarcodePfx b) s

lemma toggleOutOfStock_ws (env : Env) (ib : String) (s : AppState) :
    ((toggleOutOfStock env ib s).1).workflowState = s.workflowState := by
  unfold toggleOutOfStock
  repeat' split
  all_goals simp [writeOrderData]

lemma manualQuantityEntry_ws (env : Env) (ib : String) (s : AppState) :
    ((manualQuantityEntry env ib s).1).workflowState = s.workflowState := by
  unfold manualQuantityEntry
  repeat' split
  all_goals simp [writeOrderData]

lemma confirmLocationMove_ws (s : AppState) :
    ((confirmLocationMove s).1).workflowState = s.workflowState := by
  unfold confirmLocationMove
  repeat' split
  all_goals rfl

lemma applyUndo_ws (e : UndoEntry) (s : AppState) :
    ((applyUndo e s).1).workflowState = s.workflowState := by
  unfold applyUndo
  repeat' split
  all_goals simp [writeOrderData, writeStockCountData]

lemma undoLast_ws (s : AppState) :
    ((undoLast s).1).workflowState = s.workflowState := by
  unfold undoLast
  split
  · rfl
  · rename_i e rest _
    exact applyUndo_ws e _

lemma completeOrder_ws (env : Env) (s : AppState) :
    ((completeOrder env s).1).workflowState = s.workflowState ∨
      ((completeOrder env s).1).workflowState = "ready" := by
  unfold completeOrder
  repeat' split
  all_goals try (exact Or.inl rfl)
  all_goals simp only [writeOrderData, resetState]
  all_goals split_ifs <;> first | exact Or.inl rfl | exact Or.inr rfl

lemma completeStockCount_ws (env : Env) (s : AppState) :
    ((completeStockCount env s).1).workflowState = s.workflowState ∨
      ((completeStockCount env s).1).workflowState = "ready" := by
  unfold completeStockCount
  repeat' split
  all_goals try (exact Or.inl rfl)
  all_goals simp only [writeStockCountData, resetState]
  all_goals split_ifs <;> first | exact Or.inl rfl | exact Or.inr rfl

lemma executeMove_ws (env : Env) (d : String) (s : AppState) :
    ((executeMove env d s).1).workflowState = s.workflowState ∨
      ((executeMove env d s).1).workflowState = "ready" := by
  unfold executeMove
  repeat' split
  all_goals first | exact Or.inl rfl | exact Or.inr rfl

lemma executeReturns_ws (d : String) (s : AppState) :
    ((executeReturns d s).1).workflowState = s.workflowState ∨
      ((executeReturns d s).1).workflowState = "ready" := by
  unfold executeReturns
  repeat' split
  all_goals first | exact Or.inl rfl | exact Or.inr rfl

lemma startReturnsClick_noop (ib : String) (s : AppState)
    (h : s.workflowState ≠ "ready") : startReturnsClick ib s = (s, []) := by
  unfold startReturnsClick
  rw [if_neg h]

lemma dispatchScan_picking (env : Env) (b : String) (s : AppState)
    (hstate : s.workflowState = "picking") (hv : isValidBarcode b = true) :
    dispatchScan env b s = handlePickingWorkflow b (getBarcodePfx b) s := by
  unfold dispatchScan
  rw [hv, hstate]
  simp

lemma dispatchScan_ready (env : Env) (b : String) (s : AppState)
    (hstate : s.workflowState = "ready") (hv : isValidBarcode b = true) :
    dispatchScan env b s = handleReadyState env b (getBarcodePfx b) s := by
  unfold dispatchScan
  rw [hv, hstate]
  simp

lemma dispatchScan_stockcount (env : Env) (b : String) (s : AppState)
    (hstate : s.workflowState = "stockcount") (hv : isValidBarcode b = true) :
    dispatchScan env b s = handleStockCountWorkflow env b (getBarcodePfx b) s := by
  unfold dispatchScan
  rw [hv, hstate]
  simp

lemma handleReadyState_noGate (env : Env) (b p : String) (s : AppState)
    (hbr : jsStartsWith b "\x7b" = false) :
    handleReadyState env b p s = handlePrefixSwitch env b p s := by
  unfold handleReadyState
  rw [hbr]
  simp

/-- C1 (amended): while a workflow session is active (state differs from
`ready`), every event either preserves the session kind or resets it to
`ready` (so a different workflow can never be entered directly, and a new
workflow starts only from the ready state); scans during an active
workflow never change the session kind at all; and a reserved-prefix scan
during an active Picking or StockCount workflow is rejected with the
kind-specific error, leaving the whole state unchanged. -/
theorem C1_single_active_workflow (env : Env) (ev : UserEvent) (s : AppState)
    (h : s.workflowState ≠ "ready") :
    ((step env ev s).1.workflowState = s.workflowState ∨
      (step env ev s).1.workflowState = "ready")
    ∧ (∀ b, ev = UserEvent.scan b →
        (step env ev s).1.workflowState = s.workflowState)
    ∧ (∀ b, ev = UserEvent.scan b → getBarcodePfx b ≠ "" →
        (s.workflowState = "picking" →
          step env ev s = (s, [Outcome.error "Item doesn\x27t exist in order"]))
        ∧ (s.workflowState = "stockcount" →
          step env ev s = (s, [Outcome.error "Item doesn\x27t exist in stock count"]))) := by
  refine ⟨?_, ?_, ?_⟩
  · cases ev with
    | scan b => exact Or.inl (dispatchScan_ws env b s h)
    | cancel => exact Or.inr rfl
    | completeOrderClick => exact completeOrder_ws env s
    | completeStockCountClick => exact completeStockCount_ws env s
    | toggleOOS ib => exact Or.inl (toggleOutOfStock_ws env ib s)
    | manualQty ib => exact Or.inl (manualQuantityEntry_ws env ib s)
    | confirmMoveClick => exact Or.inl (confirmLocationMove_ws s)
    | startReturnsClick ib =>
        refine Or.inl ?_
        show ((startReturnsClick ib s).1).workflowState = s.workflowState
        rw [startReturnsClick_noop ib s h]
    | executeMoveClick d => exact executeMove_ws env d s
    | executeReturnsClick d => exact executeReturns_ws d s
    | undoClick => exact Or.inl (undoLast_ws s)
  · intro b hb
    subst hb
    exact dispatchScan_ws env b s h
  · intro b hb hpfx
    subst hb
    have hv : isValidBarcode b = true := pfx_reserved_valid hpfx
    constructor
    · intro hpick
      show dispatchScan env b s = _
      rw [dispatchScan_picking env b s hpick hv]
      rcases getBarcodePfx_cases b with hp | hp | hp | hp
      · rw [hp]; rfl
      · rw [hp]; rfl
      · rw [hp]; rfl
      · exact absurd hp hpfx
    · intro hsc
      show dispatchScan env b s = _
      rw [dispatchScan_stockcount env b s hsc hv]
      rcases getBarcodePfx_cases b with hp | hp | hp | hp
      · rw [hp]; rfl
      · rw [hp]; rfl
      · rw [hp]; rfl
      · exact absurd hp hpfx

/-- A reachable Picking session: the state after scanning order 1001 from
the initial state. -/
def pickingS : AppState :=
  (step env0 (UserEvent.scan "ord_1001") initState).1

theorem C1_witness :
    pickingS.workflowState ≠ "ready" ∧
    step env0 (UserEvent.scan "stc_2001") pickingS
      = (pickingS, [Outcome.error "Item doesn\x27t exist in order"]) :=
  ⟨by decide,
   ((C1_single_active_workflow env0 (UserEvent.scan "stc_2001") pickingS (by decide)).2.2
      "stc_2001" rfl (by decide)).1 (by decide)⟩

/-- A reachable LocationMove session waiting for the destination scan:
location 3001 scanned, move confirmed, item scanned. -/
def moveAwaitDest : AppState :=
  (step env0 (UserEvent.scan "34623636436")
    (step env0 UserEvent.confirmMoveClick
      (step env0 (UserEvent.scan "loc_3001") initState).1).1).1

theorem C1_counterexample :
    moveAwaitDest.workflowState = "locationmove"
    ∧ getBarcodePfx "loc_3002" = "loc_"
    ∧ step env0 (UserEvent.scan "loc_3002") moveAwaitDest = (moveAwaitDest, []) := by
  refine ⟨rfl, by decide, rfl⟩

lemma pickScan_success_eq (env : Env) (s : AppState) (b : String) (src : Option String)
    (o : Order) (it : OrderItem)
    (hstate : s.workflowState = "picking")
    (hdata : s.workflowData = some (WorkData.wdOrder src o))
    (hpfx : getBarcodePfx b = "")
    (hb : b ≠ "")
    (hfind : findItemInOrder o b = some it)
    (hlt : it.quantity_picked < it.quantity_needed) :
    step env (UserEvent.scan b) s =
      ({ writeOrderData src (orderUpdate (itemMatches b) pickInc o) s with
           completeBtnShown := checkOrderCompletion (orderUpdate (itemMatches b) pickInc o)
           undoStack := pushUndo (UndoEntry.pickItem b it.quantity_picked) s.undoStack },
       [Outcome.success ("Picked " ++ it.name ++ " (" ++ toString (it.quantity_picked + 1)
          ++ "/" ++ toString it.quantity_needed ++ ")")]) := by
  show dispatchScan env b s = _
  rw [dispatchScan_picking env b s hstate (isValidBarcode_true hb), hpfx]
  unfold handlePickingWorkflow
  rw [hdata]
  simp [hfind, hlt, writeOrderData, orderUpdate]

lemma pickScan_complete_eq (env : Env) (s : AppState) (b : String) (src : Option String)
    (o : Order) (it : OrderItem)
    (hstate : s.workflowState = "picking")
    (hdata : s.workflowData = some (WorkData.wdOrder src o))
    (hpfx : getBarcodePfx b = "")
    (hb : b ≠ "")
    (hfind : findItemInOrder o b = some it)
    (hge : ¬ it.quantity_picked < it.quantity_needed) :
    step env (UserEvent.scan b) s = (s, [Outcome.warning (it.name ++ " already complete")]) := by
  show dispatchScan env b s = _
  rw [dispatchScan_picking env b s hstate (isValidBarcode_true hb), hpfx]
  unfold handlePickingWorkflow
  rw [hdata]
  simp [hfind, hge]

lemma findItemInOrder_after_pick (o : Order) (b : String) (it : OrderItem)
    (hfind : findItemInOrder o b = some it) :
    findItemInOrder (orderUpdate (itemMatches b) pickInc o) b = some (pickInc it) := by
  unfold findItemInOrder orderUpdate
  exact find?_updateFirst _ _ _ _ hfind
    (by simpa [itemMatches, pickInc] using List.find?_some hfind)

/-- C2: during an active Picking workflow, a scan matching an order line
increments exactly that line's `quantity_picked` by 1 (all other fields and
lines unchanged, as expressed by `orderUpdate` / `pickInc`) and emits the
progress success message when the line is still short; once picked has
reached needed, the scan emits the already-complete warning and changes
nothing at all; and the scanned line never exceeds its needed quantity. -/
theorem C2_pick_increment (env : Env) (s : AppState) (b : String) (src : Option String)
    (o : Order) (it : OrderItem)
    (hstate : s.workflowState = "picking")
    (hdata : s.workflowData = some (WorkData.wdOrder src o))
    (hpfx : getBarcodePfx b = "")
    (hb : b ≠ "")
    (hfind : findItemInOrder o b = some it) :
    (it.quantity_picked < it.quantity_needed →
      (step env (UserEvent.scan b) s).1.workflowData
          = some (WorkData.wdOrder src (orderUpdate (itemMatches b) pickInc o))
      ∧ (step env (UserEvent.scan b) s).2
          = [Outcome.success ("Picked " ++ it.name ++ " (" ++ toString (it.quantity_picked + 1)
              ++ "/" ++ toString it.quantity_needed ++ ")")]
      ∧ findItemInOrder (orderUpdate (itemMatches b) pickInc o) b = some (pickInc it)
      ∧ (pickInc it).quantity_picked ≤ (pickInc it).quantity_needed)
    ∧ (¬ it.quantity_picked < it.quantity_needed →
      step env (UserEvent.scan b) s = (s, [Outcome.warning (it.name ++ " already complete")])) := by
  constructor
  · intro hlt
    rw [pickScan_success_eq env s b src o it hstate hdata hpfx hb hfind hlt]
    refine ⟨by simp [writeOrderData], rfl, findItemInOrder_after_pick o b it hfind, ?_⟩
    simp [pickInc]
    omega
  · intro hge
    exact pickScan_complete_eq env s b src o it hstate hdata hpfx hb hfind hge

theorem C2_witness :
    pickingS.workflowState = "picking"
    ∧ pickingS.workflowData = some (WorkData.wdOrder (some "ord_1001") ord1001)
    ∧ findItemInOrder ord1001 "34623636436" = some redLine
    ∧ redLine.quantity_picked < redLine.quantity_needed
    ∧ ((step env0 (UserEvent.scan "34623636436") pickingS).2
        = [Outcome.success "Picked Red Widget (1/5)"]) := by
  refine ⟨rfl, rfl, by decide, by decide, ?_⟩
  exact ((C2_pick_increment env0 pickingS "34623636436" (some "ord_1001") ord1001 redLine
    rfl rfl (by decide) (by decide) (by decide)).1 (by decide)).2.1

/-- C3: the Complete Order action is available (button present) if and only
if every order line satisfies its completion predicate, re-established
after each successful mutation: item scan, out-of-stock toggle (either
direction), and manual quantity entry; the last conjunct unfolds the
`checkOrderCompletion` gate into the per-line predicate
`quantity_picked >= quantity_needed or out_of_stock`. -/
theorem C3_completion_gate :
    (∀ (env : Env) (s : AppState) (b : String) (src : Option String) (o : Order)
        (it : OrderItem),
      s.workflowState = "picking" →
      s.workflowData = some (WorkData.wdOrder src o) →
      getBarcodePfx b = "" → b ≠ "" →
      findItemInOrder o b = some it →
      it.quantity_picked < it.quantity_needed →
      (step env (UserEvent.scan b) s).1.completeBtnShown
        = checkOrderCompletion (orderUpdate (itemMatches b) pickInc o))
    ∧ (∀ (env : Env) (s : AppState) (ib : String) (src : Option String) (o : Order)
        (it : OrderItem),
      s.workflowState = "picking" →
      s.workflowData = some (WorkData.wdOrder src o) →
      findItemInOrder o ib = some it →
      (it.out_of_stock = true →
        (step env (UserEvent.toggleOOS ib) s).1.completeBtnShown
          = checkOrderCompletion
              (orderUpdate (itemMatches ib) (fun x => { x with out_of_stock := false }) o))
      ∧ (it.out_of_stock = false → env.confirmAns = true →
        (step env (UserEvent.toggleOOS ib) s).1.completeBtnShown
          = checkOrderCompletion
              (orderUpdate (itemMatches ib) (fun x => { x with out_of_stock := true }) o)))
    ∧ (∀ (env : Env) (s : AppState) (ib : String) (src : Option String) (o : Order)
        (it : OrderItem) (n : Int),
      s.workflowState = "picking" →
      s.workflowData = some (WorkData.wdOrder src o) →
      env.pinInput = some "1234" →
      findItemInOrder o ib = some it →
      env.qtyInput = some (some n) →
      0 ≤ n → n ≤ (it.quantity_needed : Int) →
      (step env (UserEvent.manualQty ib) s).1.completeBtnShown
        = checkOrderCompletion
            (orderUpdate (itemMatches ib) (fun x => { x with quantity_picked := n.toNat }) o))
    ∧ (∀ o : Order, checkOrderCompletion o = true ↔
        ∀ it ∈ o.items, it.quantity_needed ≤ it.quantity_picked ∨ it.out_of_stock = true) := by
  refine ⟨?_, ?_, ?_, ?_⟩
  · intro env s b src o it hstate hdata hpfx hb hfind hlt
    rw [pickScan_success_eq env s b src o it hstate hdata hpfx hb hfind hlt]
  · intro env s ib src o it hstate hdata hfind
    constructor
    · intro hoos
      show (toggleOutOfStock env ib s).1.completeBtnShown = _
      unfold toggleOutOfStock
      rw [hdata]
      simp [hstate, hfind, hoos]
    · intro hoos hconf
      show (toggleOutOfStock env ib s).1.completeBtnShown = _
      unfold toggleOutOfStock
      rw [hdata]
      simp [hstate, hfind, hoos, hconf]
  · intro env s ib src o it n hstate hdata hpin hfind hqty hn0 hnle
    show (manualQuantityEntry env ib s).1.completeBtnShown = _
    unfold manualQuantityEntry
    rw [hstate, hpin, hdata]
    simp [hfind, hqty, hn0, hnle]
  · intro o
    simp [checkOrderCompletion, List.all_eq_true]

theorem C3_witness :
    pickingS.workflowState = "picking"
    ∧ pickingS.workflowData = some (WorkData.wdOrder (some "ord_1001") ord1001)
    ∧ findItemInOrder ord1001 "34623636436" = some redLine
    ∧ redLine.out_of_stock = false ∧ env0.confirmAns = true
    ∧ (step env0 (UserEvent.toggleOOS "34623636436") pickingS).1.completeBtnShown
        = checkOrderCompletion
            (orderUpdate (itemMatches "34623636436")
              (fun x => { x with out_of_stock := true }) ord1001) := by
  refine ⟨rfl, rfl, by decide, rfl, rfl, ?_⟩
  exact ((C3_completion_gate.2.1 env0 pickingS "34623636436" (some "ord_1001") ord1001 redLine
    rfl rfl (by decide)).2 rfl rfl)

/-- C4 (amended): while a Picking workflow is active, every invalid
nonempty scan yields exactly one of the two rejection messages and leaves
the session unchanged: a reserved-prefix scan yields the does-not-exist
error and an item-classified scan matching no order line yields the
does-not-appear error.  (The empty scan is rejected earlier with the
generic format error, see the counterexample; it also leaves the session
unchanged.) -/
theorem C4_invalid_scan_errors (env : Env) (s : AppState) (b : String)
    (src : Option String) (o : Order)
    (hstate : s.workflowState = "picking")
    (hb : b ≠ "") :
    (getBarcodePfx b ≠ "" →
      step env (UserEvent.scan b) s = (s, [Outcome.error "Item doesn\x27t exist in order"]))
    ∧ (getBarcodePfx b = "" → s.workflowData = some (WorkData.wdOrder src o) →
      findItemInOrder o b = none →
      step env (UserEvent.scan b) s
        = (s, [Outcome.error "Item doesn\x27t appear in the order"])) := by
  constructor
  · intro hpfx
    show dispatchScan env b s = _
    rw [dispatchScan_picking env b s hstate (pfx_reserved_valid hpfx)]
    rcases getBarcodePfx_cases b with hp | hp | hp | hp
    · rw [hp]; rfl
    · rw [hp]; rfl
    · rw [hp]; rfl
    · exact absurd hp hpfx
  · intro hpfx hdata hnone
    show dispatchScan env b s = _
    rw [dispatchScan_picking env b s hstate (isValidBarcode_true hb), hpfx]
    unfold handlePickingWorkflow
    rw [hdata]
    simp [hnone]

theorem C4_witness :
    pickingS.workflowState = "picking"
    ∧ ("stc_2001" : String) ≠ "" ∧ getBarcodePfx "stc_2001" ≠ ""
    ∧ step env0 (UserEvent.scan "stc_2001") pickingS
        = (pickingS, [Outcome.error "Item doesn\x27t exist in order"])
    ∧ ("nosuchitem" : String) ≠ "" ∧ getBarcodePfx "nosuchitem" = ""
    ∧ findItemInOrder ord1001 "nosuchitem" = none
    ∧ step env0 (UserEvent.scan "nosuchitem") pickingS
        = (pickingS, [Outcome.error "Item doesn\x27t appear in the order"]) := by
  refine ⟨rfl, by decide, by decide, ?_, by decide, by decide, by decide, ?_⟩
  · exact (C4_invalid_scan_errors env0 pickingS "stc_2001" (some "ord_1001") ord1001
      rfl (by decide)).1 (by decide)
  · exact (C4_invalid_scan_errors env0 pickingS "nosuchitem" (some "ord_1001") ord1001
      rfl (by decide)).2 (by decide) rfl (by decide)

theorem C4_counterexample :
    pickingS.workflowState = "picking"
    ∧ step env0 (UserEvent.scan "") pickingS
        = (pickingS, [Outcome.error "Invalid barcode format"])
    ∧ ("Invalid barcode format" : String) ≠ "Item doesn\x27t exist in order"
    ∧ ("Invalid barcode format" : String) ≠ "Item doesn\x27t appear in the order" :=
  ⟨rfl, rfl, by decide, by decide⟩

/-- C5: a scan whose classified entity (order / stock count / location) is
absent from its repository yields the matching not-found error outcome and
leaves the whole state unchanged (no partial transition).  The `parseOrder`
hypothesis records that an `ord_`-prefixed barcode is not parseable JSON. -/
theorem C5_lookup_not_found (env : Env) (s : AppState) (b : String)
    (hready : s.workflowState = "ready") :
    (getBarcodePfx b = "ord_" → env.parseOrder b = none → storeGet b s.orders = none →
      step env (UserEvent.scan b) s = (s, [Outcome.error ("Order not found: " ++ b)]))
    ∧ (getBarcodePfx b = "stc_" → storeGet b s.stockCounts = none →
      step env (UserEvent.scan b) s = (s, [Outcome.error ("Stock count not found: " ++ b)]))
    ∧ (getBarcodePfx b = "loc_" → getLocation b = none →
      step env (UserEvent.scan b) s = (s, [Outcome.error ("Location not found: " ++ b)])) := by
  refine ⟨?_, ?_, ?_⟩
  · intro hpfx hparse hlook
    have hne : getBarcodePfx b ≠ "" := by rw [hpfx]; decide
    show dispatchScan env b s = _
    rw [dispatchScan_ready env b s hready (pfx_reserved_valid hne),
        handleReadyState_noGate env b (getBarcodePfx b) s (pfx_reserved_not_brace hne), hpfx]
    unfold handlePrefixSwitch startPickingWorkflow
    simp [hparse, hlook]
  · intro hpfx hlook
    have hne : getBarcodePfx b ≠ "" := by rw [hpfx]; decide
    show dispatchScan env b s = _
    rw [dispatchScan_ready env b s hready (pfx_reserved_valid hne),
        handleReadyState_noGate env b (getBarcodePfx b) s (pfx_reserved_not_brace hne), hpfx]
    unfold handlePrefixSwitch startStockCountWorkflow
    simp [hlook]
  · intro hpfx hlook
    have hne : getBarcodePfx b ≠ "" := by rw [hpfx]; decide
    show dispatchScan env b s = _
    rw [dispatchScan_ready env b s hready (pfx_reserved_valid hne),
        handleReadyState_noGate env b (getBarcodePfx b) s (pfx_reserved_not_brace hne), hpfx]
    unfold handlePrefixSwitch startLocationMoveWorkflow
    simp [hlook]

theorem C5_witness :
    initState.workflowState = "ready"
    ∧ getBarcodePfx "ord_9999" = "ord_"
    ∧ env0.parseOrder "ord_9999" = none
    ∧ storeGet "ord_9999" initState.orders = none
    ∧ step env0 (UserEvent.scan "ord_9999") initState
        = (initState, [Outcome.error ("Order not found: " ++ "ord_9999")])
    ∧ step env0 (UserEvent.scan "stc_9999") initState
        = (initState, [Outcome.error ("Stock count not found: " ++ "stc_9999")])
    ∧ step env0 (UserEvent.scan "loc_9999") initState
        = (initState, [Outcome.error ("Location not found: " ++ "loc_9999")]) := by
  refine ⟨rfl, by decide, rfl, by decide, ?_, ?_, ?_⟩
  · exact (C5_lookup_not_found env0 initState "ord_9999" rfl).1 (by decide) rfl (by decide)
  · exact (C5_lookup_not_found env0 initState "stc_9999" rfl).2.1 (by decide) (by decide)
  · exact (C5_lookup_not_found env0 initState "loc_9999" rfl).2.2 (by decide) (by decide)

/-- C6 (amended): in the ready state, a payload passing the structural gate
(starts with a brace and contains `order_id`) that parses as a valid order
starts Picking directly from the embedded data, bypassing the repository
(the session records no store key and the `ORDERS` table is untouched); a
payload passing the gate but failing to parse falls back to the order
repository lookup (not to prefix classification), yielding order-not-found
when absent; a payload failing the gate is handled by the standard prefix
switch. -/
theorem C6_inline_order (env : Env) (s : AppState) (b : String)
    (hready : s.workflowState = "ready") (hb : b ≠ "") :
    ((jsStartsWith b "\x7b" && jsIncludes b "order_id") = true →
      (∀ o, env.parseOrder b = some o →
        step env (UserEvent.scan b) s
          = ({ s with currentWorkflow := some "picking"
                      workflowData := some (WorkData.wdOrder none o)
                      workflowState := "picking"
                      completeBtnShown := false },
             [Outcome.success ("Order " ++ toString o.order_id ++ " loaded for " ++ o.customer)])
        ∧ (step env (UserEvent.scan b) s).1.orders = s.orders)
      ∧ (env.parseOrder b = none → storeGet b s.orders = none →
        step env (UserEvent.scan b) s = (s, [Outcome.error ("Order not found: " ++ b)])))
    ∧ ((jsStartsWith b "\x7b" && jsIncludes b "order_id") = false →
      step env (UserEvent.scan b) s = handlePrefixSwitch env b (getBarcodePfx b) s) := by
  constructor
  · intro hgate
    have hred : step env (UserEvent.scan b) s = startPickingWorkflow env b s := by
      show dispatchScan env b s = _
      rw [dispatchScan_ready env b s hready (isValidBarcode_true hb)]
      unfold handleReadyState
      rw [hgate]
      simp
    constructor
    · intro o hparse
      rw [hred]
      unfold startPickingWorkflow
      rw [hparse]
      exact ⟨rfl, rfl⟩
    · intro hparse hlook
      rw [hred]
      unfold startPickingWorkflow
      rw [hparse]
      simp [hlook]
  · intro hgate
    show dispatchScan env b s = _
    rw [dispatchScan_ready env b s hready (isValidBarcode_true hb)]
    unfold handleReadyState
    rw [hgate]
    simp

/-- An order embedded in a scanned QR payload, used to instantiate the
`parseOrder` oracle. -/
def inlineOrd : Order :=
  { order_id := 777, customer := "Inline Co", items := [] }

/-- The inline-order QR payload for `inlineOrd`. -/
def inlinePayload : String :=
  "\x7b\x22order_id\x22:777,\x22customer\x22:\x22Inline Co\x22,\x22items\x22:[]\x7d"

/-- An environment whose parse oracle accepts exactly `inlinePayload`
(mirroring what `JSON.parse` plus the validation does on it). -/
def envInline : Env :=
  { parseOrder := fun p => if p = inlinePayload then some inlineOrd else none
    confirmAns := true
    pinInput := none
    qtyInput := none }

theorem C6_witness :
    initState.workflowState = "ready"
    ∧ inlinePayload ≠ ""
    ∧ (jsStartsWith inlinePayload "\x7b" && jsIncludes inlinePayload "order_id") = true
    ∧ envInline.parseOrder inlinePayload = some inlineOrd
    ∧ step envInline (UserEvent.scan inlinePayload) initState
        = ({ initState with currentWorkflow := some "picking"
                            workflowData := some (WorkData.wdOrder none inlineOrd)
                            workflowState := "picking"
                            completeBtnShown := false },
           [Outcome.success ("Order " ++ toString inlineOrd.order_id ++ " loaded for "
              ++ inlineOrd.customer)])
    ∧ (step envInline (UserEvent.scan inlinePayload) initState).1.orders = initState.orders := by
  refine ⟨rfl, by decide, by decide, by simp [envInline], ?_, ?_⟩
  · exact (((C6_inline_order envInline initState inlinePayload rfl (by decide)).1
      (by decide)).1 inlineOrd (by simp [envInline])).1
  · exact (((C6_inline_order envInline initState inlinePayload rfl (by decide)).1
      (by decide)).1 inlineOrd (by simp [envInline])).2

theorem C6_counterexample :
    (jsStartsWith "\x7border_id" "\x7b" && jsIncludes "\x7border_id" "order_id") = true
    ∧ env0.parseOrder "\x7border_id" = none
    ∧ step env0 (UserEvent.scan "\x7border_id") initState
        = (initState, [Outcome.error ("Order not found: " ++ "\x7border_id")])
    ∧ handlePrefixSwitch env0 "\x7border_id" (getBarcodePfx "\x7border_id") initState
        = (initState, [Outcome.error ("Item not found: " ++ "\x7border_id")])
    ∧ step env0 (UserEvent.scan "\x7border_id") initState
        ≠ handlePrefixSwitch env0 "\x7border_id" (getBarcodePfx "\x7border_id") initState := by
  refine ⟨by decide, rfl, rfl, rfl, by decide⟩

lemma getBarcodePfx_idem (b : String) :
    getBarcodePfx (String.mk (b.toList.take 4)) = getBarcodePfx b := by
  unfold getBarcodePfx
  rw [show (String.mk (b.toList.take 4)).toList = b.toList.take 4 from rfl, List.take_take]
  norm_num

lemma pfx_of_take4_ord (b : String) (h : String.mk (b.toList.take 4) = "ord_") :
    getBarcodePfx b = "ord_" := by
  unfold getBarcodePfx
  rw [h]
  simp

lemma pfx_of_take4_stc (b : String) (h : String.mk (b.toList.take 4) = "stc_") :
    getBarcodePfx b = "stc_" := by
  unfold getBarcodePfx
  rw [h]
  simp

lemma pfx_of_take4_loc (b : String) (h : String.mk (b.toList.take 4) = "loc_") :
    getBarcodePfx b = "loc_" := by
  unfold getBarcodePfx
  rw [h]
  simp

lemma pfx_of_take4_other (b : String)
    (h1 : String.mk (b.toList.take 4) ≠ "ord_")
    (h2 : String.mk (b.toList.take 4) ≠ "stc_")
    (h3 : String.mk (b.toList.take 4) ≠ "loc_") :
    getBarcodePfx b = "" := by
  unfold getBarcodePfx
  have hc : (String.mk (b.toList.take 4) = "ord_" || String.mk (b.toList.take 4) = "stc_"
      || String.mk (b.toList.take 4) = "loc_") = false := by
    simp only [Bool.or_eq_false_iff, decide_eq_false_iff_not]
    exact ⟨⟨h1, h2⟩, h3⟩
  rw [hc]
  simp

lemma take4_short_ne (b : String) (p : String) (hp : p.toList.length = 4)
    (h : b.toList.length < 4) : String.mk (b.toList.take 4) ≠ p := by
  intro he
  have hdata : b.toList.take 4 = p.toList := congrArg String.toList he
  have hl : (b.toList.take 4).length = p.toList.length := congrArg List.length hdata
  rw [List.length_take, hp] at hl
  omega

/-- C7: barcode classification is a total function of the scanned string
(so deterministic and non-throwing by construction), determined solely by
its first four characters: `ord_` / `stc_` / `loc_` map to the three
reserved categories and every other string, including strings shorter than
four characters, classifies as Item. -/
theorem C7_classifier_total (b : String) :
    classifyBarcode b = classifyBarcode (String.mk (b.toList.take 4))
    ∧ (String.mk (b.toList.take 4) = "ord_" ↔ classifyBarcode b = BarcodeKind.order)
    ∧ (String.mk (b.toList.take 4) = "stc_" ↔ classifyBarcode b = BarcodeKind.stockCount)
    ∧ (String.mk (b.toList.take 4) = "loc_" ↔ classifyBarcode b = BarcodeKind.location)
    ∧ (String.mk (b.toList.take 4) ≠ "ord_" → String.mk (b.toList.take 4) ≠ "stc_" →
        String.mk (b.toList.take 4) ≠ "loc_" → classifyBarcode b = BarcodeKind.item)
    ∧ (b.toList.length < 4 → classifyBarcode b = BarcodeKind.item) := by
  have hcls : ∀ q, getBarcodePfx b = q →
      classifyBarcode b = (if q = "ord_" then BarcodeKind.order
        else if q = "stc_" then BarcodeKind.stockCount
        else if q = "loc_" then BarcodeKind.location
        else BarcodeKind.item) := by
    intro q hq
    unfold classifyBarcode
    rw [hq]
  refine ⟨?_, ?_, ?_, ?_, ?_, ?_⟩
  · unfold classifyBarcode
    rw [getBarcodePfx_idem]
  · constructor
    · intro h
      rw [hcls "ord_" (pfx_of_take4_ord b h)]
      rfl
    · intro h
      rcases getBarcodePfx_cases b with hp | hp | hp | hp
      · exact mk_take4_eq hp (by decide)
      · rw [hcls "stc_" hp] at h; exact absurd h (by decide)
      · rw [hcls "loc_" hp] at h; exact absurd h (by decide)
      · rw [hcls "" hp] at h; exact absurd h (by decide)
  · constructor
    · intro h
      rw [hcls "stc_" (pfx_of_take4_stc b h)]
      rfl
    · intro h
      rcases getBarcodePfx_cases b with hp | hp | hp | hp
      · rw [hcls "ord_" hp] at h; exact absurd h (by decide)
      · exact mk_take4_eq hp (by decide)
      · rw [hcls "loc_" hp] at h; exact absurd h (by decide)
      · rw [hcls "" hp] at h; exact absurd h (by decide)
  · constructor
    · intro h
      rw [hcls "loc_" (pfx_of_take4_loc b h)]
      rfl
    · intro h
      rcases getBarcodePfx_cases b with hp | hp | hp | hp
      · rw [hcls "ord_" hp] at h; exact absurd h (by decide)
      · rw [hcls "stc_" hp] at h; exact absurd h (by decide)
      · exact mk_take4_eq hp (by decide)
      · rw [hcls "" hp] at h; exact absurd h (by decide)
  · intro h1 h2 h3
    rw [hcls "" (pfx_of_take4_other b h1 h2 h3)]
    rfl
  · intro hlen
    rw [hcls "" (pfx_of_take4_other b
      (take4_short_ne b "ord_" (by decide) hlen)
      (take4_short_ne b "stc_" (by decide) hlen)
      (take4_short_ne b "loc_" (by decide) hlen))]
    rfl

theorem C7_witness :
    (String.mk (("ord_1001" : String).toList.take 4) = "ord_"
      ∧ classifyBarcode "ord_1001" = BarcodeKind.order)
    ∧ (("ab" : String).toList.length < 4 ∧ classifyBarcode "ab" = BarcodeKind.item)
    ∧ classifyBarcode "34623636436" = BarcodeKind.item :=
  ⟨⟨by decide, (C7_classifier_total "ord_1001").2.1.mp (by decide)⟩,
   ⟨by decide, (C7_classifier_total "ab").2.2.2.2.2 (by decide)⟩,
   (C7_classifier_total "34623636436").2.2.2.2.1 (by decide) (by decide) (by decide)⟩

/-- C8: from every state, cancel succeeds unconditionally and
synchronously: the session kind returns to ready and every piece of
workflow-scoped state (current workflow, workflow data, step, move source
location, move item, and the spec-modelled undo log) is discarded, with the
cancellation warning as the only outcome. -/
theorem C8_cancel_unconditional (env : Env) (s : AppState) :
    (step env UserEvent.cancel s).1.workflowState = "ready"
    ∧ (step env UserEvent.cancel s).1.currentWorkflow = none
    ∧ (step env UserEvent.cancel s).1.workflowData = none
    ∧ (step env UserEvent.cancel s).1.moveWorkflowStep = none
    ∧ (step env UserEvent.cancel s).1.moveSourceLocation = none
    ∧ (step env UserEvent.cancel s).1.moveItem = none
    ∧ (step env UserEvent.cancel s).1.completeBtnShown = false
    ∧ (step env UserEvent.cancel s).1.undoStack = []
    ∧ (step env UserEvent.cancel s).2 = [Outcome.warning "Workflow cancelled"] :=
  ⟨rfl, rfl, rfl, rfl, rfl, rfl, rfl, rfl, rfl⟩

/-- C9: requesting undo with an empty undo log returns the nothing-to-undo
warning and mutates nothing (the returned state is the input state); and
every cancel-reset clears the log, so the property in particular covers
every state reached right after a reset.  The undo subsystem is modelled
from the spec (no implementation exists in the sources). -/
theorem C9_undo_empty_noop (env : Env) (s : AppState)
    (h : s.undoStack = []) :
    step env UserEvent.undoClick s = (s, [Outcome.warning "Nothing to undo"])
    ∧ (∀ t : AppState, (step env UserEvent.cancel t).1.undoStack = []) := by
  constructor
  · show undoLast s = _
    unfold undoLast
    rw [h]
  · intro t
    rfl

/-- The state after picking Red Widget once and undoing that pick: its undo
log is empty again. -/
def afterUndo : AppState :=
  (step env0 UserEvent.undoClick
    (step env0 (UserEvent.scan "34623636436") pickingS).1).1

theorem C9_witness :
    initState.undoStack = []
    ∧ step env0 UserEvent.undoClick initState
        = (initState, [Outcome.warning "Nothing to undo"])
    ∧ afterUndo.undoStack = []
    ∧ step env0 UserEvent.undoClick afterUndo
        = (afterUndo, [Outcome.warning "Nothing to undo"]) :=
  ⟨rfl, (C9_undo_empty_noop env0 initState rfl).1,
   by decide, (C9_undo_empty_noop env0 afterUndo (by decide)).1⟩

/-- C10: picking scans mutate the shared `ORDERS` record in place and
cancel does not roll them back — after an increment and a cancel, looking
the order up again returns the incremented record, and cancel never touches
the orders table at all; only the explicit complete-order action resets
every line's `quantity_picked` to 0 (in the shared record) before resetting
the session. -/
theorem C10_mutation_persists (env env2 : Env) (s s₂ : AppState) (b key key₂ : String)
    (o o₂ : Order) (it : OrderItem)
    (hstate : s.workflowState = "picking")
    (hdata : s.workflowData = some (WorkData.wdOrder (some key) o))
    (hstore : storeGet key s.orders = some o)
    (hpfx : getBarcodePfx b = "") (hb : b ≠ "")
    (hfind : findItemInOrder o b = some it)
    (hlt : it.quantity_picked < it.quantity_needed)
    (hstate₂ : s₂.workflowState = "picking")
    (hdata₂ : s₂.workflowData = some (WorkData.wdOrder (some key₂) o₂))
    (hstore₂ : storeGet key₂ s₂.orders = some o₂)
    (hbtn₂ : s₂.completeBtnShown = true)
    (hconf₂ : env2.confirmAns = true) :
    storeGet key ((step env UserEvent.cancel (step env (UserEvent.scan b) s).1).1).orders
        = some (orderUpdate (itemMatches b) pickInc o)
    ∧ (step env UserEvent.cancel (step env (UserEvent.scan b) s).1).1.workflowState = "ready"
    ∧ (∀ t : AppState, (step env UserEvent.cancel t).1.orders = t.orders)
    ∧ storeGet key₂ ((step env2 UserEvent.completeOrderClick s₂).1).orders
        = some { o₂ with items := o₂.items.map (fun x => { x with quantity_picked := 0 }) }
    ∧ (step env2 UserEvent.completeOrderClick s₂).1.workflowState = "ready" := by
  have h1 := pickScan_success_eq env s b (some key) o it hstate hdata hpfx hb hfind hlt
  refine ⟨?_, rfl, fun t => rfl, ?_, ?_⟩
  · rw [h1]
    show storeGet key (storeSet key (orderUpdate (itemMatches b) pickInc o) s.orders) = _
    exact storeGet_storeSet_self key (orderUpdate (itemMatches b) pickInc o) o s.orders hstore
  · show storeGet key₂ ((completeOrder env2 s₂).1).orders = _
    unfold completeOrder
    rw [hdata₂, hbtn₂]
    simp only [hconf₂, Bool.not_true, Bool.and_false, Bool.false_eq_true, if_false,
      writeOrderData, resetState]
    exact storeGet_storeSet_self key₂ _ o₂ s₂.orders hstore₂
  · show ((completeOrder env2 s₂).1).workflowState = _
    unfold completeOrder
    rw [hdata₂, hbtn₂]
    simp [hconf₂, writeOrderData, resetState]

/-- The Picking session on order 1001 with both lines flagged out of stock:
the completion gate is open while both lines are still unpicked. -/
def toggledS : AppState :=
  (step env0 (UserEvent.toggleOOS "354#%&23_23")
    (step env0 (UserEvent.toggleOOS "34623636436") pickingS).1).1

/-- The order-1001 record after both out-of-stock toggles. -/
def ord1001oos : Order :=
  { order_id := 1001
    customer := "ACME Corp"
    items := [ { redLine with out_of_stock := true }
             , { blueLine with out_of_stock := true } ] }

theorem C10_witness :
    pickingS.workflowState = "picking"
    ∧ storeGet "ord_1001" pickingS.orders = some ord1001
    ∧ redLine.quantity_picked < redLine.quantity_needed
    ∧ toggledS.completeBtnShown = true
    ∧ storeGet "ord_1001"
        ((step env0 UserEvent.cancel
          (step env0 (UserEvent.scan "34623636436") pickingS).1).1).orders
        = some (orderUpdate (itemMatches "34623636436") pickInc ord1001)
    ∧ storeGet "ord_1001" ((step env0 UserEvent.completeOrderClick toggledS).1).orders
        = some { ord1001oos with
                   items := ord1001oos.items.map (fun x => { x with quantity_picked := 0 }) }
    ∧ (step env0 UserEvent.completeOrderClick toggledS).1.workflowState = "ready" := by
  have h := C10_mutation_persists env0 env0 pickingS toggledS "34623636436" "ord_1001"
    "ord_1001" ord1001 ord1001oos redLine rfl (by decide) (by decide) (by decide) (by decide)
    (by decide) (by decide) (by decide) (by decide) (by decide) (by decide) rfl
  exact ⟨rfl, by decide, by decide, by decide, h.1, h.2.2.2.1, h.2.2.2.2⟩
